import Mathlib

/-!
Verification of the natural-language specification of
`git-credential-keepassxc` against a shallow embedding of `src/main.rs`.

The counterpart password manager (KeePassXC) is an external process; every
place the program sends a request and receives a response is modelled by an
oracle: a function from the index of the call (how many calls of that kind
have been made so far for the database at hand) to the response the
counterpart gives.  Pure decision logic is translated directly from
`src/main.rs`; data shapes of the helper modules (`config`, `cli`,
`keepassxc`) that are not part of the provided sources are reconstructed
from their uses in `src/main.rs`.
-/

/-- A database association record, fields as in the `config::Database`
struct used by `src/main.rs` (see the unit tests at its bottom). -/
structure Database where
  id : String
  key : String
  pkey : String
  group : String
  group_uuid : String
deriving DecidableEq

/-- An allow-listed caller record, fields as constructed in `caller()` in
`src/main.rs`. -/
structure Caller where
  path : String
  uid : Option Nat
  gid : Option Nat
  canonicalize : Bool
deriving DecidableEq

/-- The configuration file contents relevant to the verified logic
(plaintext view: `get_databases`/`get_callers` succeed). -/
structure Config where
  databases : List Database
  callers : List Caller
deriving DecidableEq

def Config.get_databases (config : Config) : List Database := config.databases

def Config.get_callers (config : Config) : List Caller := config.callers

def Config.count_databases (config : Config) : Nat := config.databases.length

def Config.count_callers (config : Config) : Nat := config.callers.length

/-- Unlock options parsed by the CLI layer: `max_retries` (0 = unlimited)
and the polling `interval` in milliseconds. -/
structure UnlockOptions where
  max_retries : Nat
  interval : Nat
deriving DecidableEq

/-- Outcome of one `TestAssociateRequest::send`: success carries the
optional `success` flag of the decoded response; failure is split into
the database-locked error (`KeePassError::is_database_locked()`) and any
other error. -/
inductive TasoResult where
  | ok (success : Option Bool)
  | errLocked
  | errOther
deriving DecidableEq

/-- `database_locked` as computed in `associated_databases`: true exactly
when the send failed with a database-locked `KeePassError`. -/
def TasoResult.isLocked : TasoResult → Bool
  | .errLocked => true
  | _ => false

/-- Update of the `success` variable in `associated_databases`: assigned
from the response's `success` flag when the send succeeded
(`map_or(false, ...)`), left unchanged when the send failed. -/
def TasoResult.newSuccess (prev : Bool) : TasoResult → Bool
  | .ok s => s.getD false
  | _ => prev

/-- Oracle for the counterpart's behaviour towards one database:
`taso n` is the outcome of the (n+1)-th `TestAssociate` send, `hash n`
tells whether the (n+1)-th `GetDatabaseHash` probe send succeeds. -/
structure Counterpart where
  taso : Nat → TasoResult
  hash : Nat → Bool

/-- State threaded through the inner `while` polling loop of
`associated_databases`: remaining retries, number of `GetDatabaseHash`
probes sent so far, number of sleeps performed so far. -/
structure PollState where
  remain : Nat
  hashIdx : Nat
  sleeps : Nat
deriving DecidableEq

/-- How the inner polling loop ended: via a successful probe (`break` on
`gh_req.send(...).is_ok()`) or via its loop condition becoming false. -/
inductive PollExit where
  | unlocked (st : PollState)
  | exhausted (st : PollState)
deriving DecidableEq

def PollExit.state : PollExit → PollState
  | .unlocked st => st
  | .exhausted st => st

/-- The inner `while remain_retries > 0 || max_retries == 0` loop of
`associated_databases` (lines 96-115 of `src/main.rs`): sleep, probe with
`GetDatabaseHash`, break on probe success, otherwise decrement the retry
counter unless `max_retries` is the unlimited sentinel 0.  `fuel` bounds
the number of iterations; `none` means the loop did not finish within the
fuel (the unlimited-retries loop may not terminate). -/
def pollLoop (hash : Nat → Bool) (max_retries : Nat) : Nat → PollState → Option PollExit
  | 0, _ => none
  | fuel + 1, st =>
    if 0 < st.remain ∨ max_retries = 0 then
      if hash st.hashIdx then
        some (PollExit.unlocked ⟨st.remain, st.hashIdx + 1, st.sleeps + 1⟩)
      else
        pollLoop hash max_retries fuel
          ⟨if max_retries ≠ 0 then st.remain - 1 else st.remain,
           st.hashIdx + 1, st.sleeps + 1⟩
    else
      some (PollExit.exhausted st)

/-- State threaded through the outer `loop` of `associated_databases`. -/
structure AuthState where
  remain : Nat
  success : Bool
  tasoIdx : Nat
  hashIdx : Nat
  sleeps : Nat
deriving DecidableEq

/-- Observable outcome of the per-database authentication loop: the final
`success` flag and how many `TestAssociate` sends, `GetDatabaseHash`
probes and sleeps happened. -/
structure AuthResult where
  success : Bool
  tasoCalls : Nat
  hashPolls : Nat
  sleeps : Nat
deriving DecidableEq

/-- The outer `loop` of the filter closure in `associated_databases`
(lines 69-120 of `src/main.rs`): send `TestAssociate`, recompute
`success` and `database_locked`, break when `success ||
!database_locked || unlock_options.is_none()`, otherwise run the inner
polling loop and break when retries are exhausted
(`remain_retries == 0 && max_retries != 0`). -/
def authLoop (cp : Counterpart) (opts : Option UnlockOptions) : Nat → AuthState → Option AuthResult
  | 0, _ => none
  | fuel + 1, st =>
    match opts with
    | none =>
      some ⟨(cp.taso st.tasoIdx).newSuccess st.success, st.tasoIdx + 1, st.hashIdx, st.sleeps⟩
    | some o =>
      if (cp.taso st.tasoIdx).newSuccess st.success = true ∨
          (cp.taso st.tasoIdx).isLocked = false then
        some ⟨(cp.taso st.tasoIdx).newSuccess st.success, st.tasoIdx + 1, st.hashIdx, st.sleeps⟩
      else
        match pollLoop cp.hash o.max_retries fuel ⟨st.remain, st.hashIdx, st.sleeps⟩ with
        | none => none
        | some ex =>
          if (ex.state).remain = 0 ∧ o.max_retries ≠ 0 then
            some ⟨(cp.taso st.tasoIdx).newSuccess st.success, st.tasoIdx + 1,
              (ex.state).hashIdx, (ex.state).sleeps⟩
          else
            authLoop cp opts fuel
              ⟨(ex.state).remain, (cp.taso st.tasoIdx).newSuccess st.success, st.tasoIdx + 1,
                (ex.state).hashIdx, (ex.state).sleeps⟩

/-- Per-database authentication as performed by the filter closure of
`associated_databases`: `remain_retries` starts at
`unlock_options.map_or_else(|| 0, |v| v.max_retries)`, `success` at
`false`, and no request has been sent yet. -/
def databaseAuth (cp : Counterpart) (opts : Option UnlockOptions) (fuel : Nat) :
    Option AuthResult :=
  authLoop cp opts fuel ⟨(opts.map UnlockOptions.max_retries).getD 0, false, 0, 0, 0⟩

/-- The `filter` + `collect` of `associated_databases`: keep exactly the
databases whose authentication loop ends with `success = true`.  `none`
when some database's loop did not finish within the fuel. -/
def filterAuth (cps : Database → Counterpart) (opts : Option UnlockOptions) (fuel : Nat) :
    List Database → Option (List Database)
  | [] => some []
  | db :: rest =>
    match databaseAuth (cps db) opts fuel with
    | none => none
    | some r =>
      match filterAuth cps opts fuel rest with
      | none => none
      | some tail => some (if r.success = true then db :: tail else tail)

/-- `associated_databases` (lines 58-136 of `src/main.rs`): filter the
configured databases by per-database authentication, then fail when the
filtered list is empty (`No valid database associations found`) and
succeed with the list otherwise. -/
def associated_databases (config : Config) (cps : Database → Counterpart)
    (opts : Option UnlockOptions) (fuel : Nat) : Option (Except Unit (List Database)) :=
  (filterAuth cps opts fuel config.get_databases).map
    (fun databases => if databases.isEmpty then Except.error () else Except.ok databases)

/-- Counterpart whose database is locked: the first `TestAssociate` send
fails with the locked error, later sends succeed; the first two
`GetDatabaseHash` probes fail, the third and later succeed. -/
def cpUnlockedOnThirdProbe : Counterpart where
  taso := fun n => if n = 0 then TasoResult.errLocked else TasoResult.ok (some true)
  hash := fun n => decide (2 ≤ n)

/-- Counterpart whose database stays locked forever. -/
def cpAlwaysLocked : Counterpart where
  taso := fun _ => TasoResult.errLocked
  hash := fun _ => false

def optsRetries3 : UnlockOptions := ⟨3, 10⟩

def optsRetries1 : UnlockOptions := ⟨1, 10⟩

def dbOne : Database := ⟨"db1", "", "pkey1", "git", "uuid-git"⟩

def cfgOneDb : Config := ⟨[dbOne], []⟩

/-- Claim C1, counterexample: with `max_retries = 3` and a counterpart
locked for the first two `GetDatabaseHash` probes and unlocked on the
third, association does succeed, but three sleeps occur (one before each
probe), not the two the claim states. -/
theorem claim1_counterexample :
    databaseAuth cpUnlockedOnThirdProbe (some optsRetries3) 16 =
      some ⟨true, 2, 3, 3⟩ ∧ (3 : Nat) ≠ 2 := by
  exact ⟨by decide, by decide⟩

/-- Claim C1 (amended): with `max_retries = 3` and a counterpart locked
for the first two `GetDatabaseHash` probes and unlocked on the third,
association succeeds after exactly 3 sleeps of the configured interval
(one preceding each of the 3 probes); with `max_retries = 1` and a
permanently locked counterpart, association for that database fails
after exactly 1 `GetDatabaseHash` poll (and 1 sleep). -/
theorem claim1_retry_loop :
    (databaseAuth cpUnlockedOnThirdProbe (some optsRetries3) 16 =
      some ⟨true, 2, 3, 3⟩) ∧
    (associated_databases cfgOneDb (fun _ => cpUnlockedOnThirdProbe)
      (some optsRetries3) 16 = some (Except.ok [dbOne])) ∧
    (databaseAuth cpAlwaysLocked (some optsRetries1) 16 =
      some ⟨false, 1, 1, 1⟩) ∧
    (associated_databases cfgOneDb (fun _ => cpAlwaysLocked)
      (some optsRetries1) 16 = some (Except.error ())) := by
  refine ⟨by decide, ?_, by decide, ?_⟩ <;> rfl

/-- Identity of the invoking process as captured by
`CurrentCaller::new()` (path and, on unix, effective uid/gid). -/
structure CurrentCaller where
  path : String
  uid : Nat
  gid : Nat
deriving DecidableEq

/-- `verify_caller` (lines 361-399 of `src/main.rs`).  The `strict-caller`
cargo feature is the `strict_caller` flag; the platform-specific
`CurrentCaller::matches` predicate (in the `utils::callers` module, not
among the provided sources) is abstracted as the `caller_matches` parameter.
Skip verification when no caller is configured and (the build is relaxed
or no database is configured); otherwise fail when no configured caller
caller_matches the current process and succeed with the resolved identity when
at least one does. -/
def verify_caller (strict_caller : Bool) (caller_matches : CurrentCaller → Caller → Bool)
    (config : Config) (current_caller : CurrentCaller) : Except Unit (Option CurrentCaller) :=
  if config.count_callers = 0 ∧ (strict_caller = false ∨ config.count_databases = 0) then
    Except.ok none
  else
    let callers := config.get_callers
    let matching_callers := callers.filter (fun caller => caller_matches current_caller caller)
    if matching_callers.length = 0 then
      Except.error ()
    else
      Except.ok (some current_caller)

/-- Claim C4: with zero callers and zero databases `verify_caller`
succeeds under both builds; with at least one database and zero callers
it succeeds under the relaxed build and fails under the strict-caller
build; and in every build, when at least one caller is configured, zero
matching callers yields an error while at least one match yields success
carrying the resolved current-caller identity. -/
theorem claim4_verify_caller :
    ∀ (strict_caller : Bool) (caller_matches : CurrentCaller → Caller → Bool)
      (config : Config) (current_caller : CurrentCaller),
      (config.callers = [] → config.databases = [] →
        verify_caller strict_caller caller_matches config current_caller = Except.ok none) ∧
      (config.callers = [] → config.databases ≠ [] →
        verify_caller false caller_matches config current_caller = Except.ok none ∧
        verify_caller true caller_matches config current_caller = Except.error ()) ∧
      (config.callers ≠ [] →
        ((config.callers.filter (fun caller => caller_matches current_caller caller)) = [] →
          verify_caller strict_caller caller_matches config current_caller = Except.error ()) ∧
        ((config.callers.filter (fun caller => caller_matches current_caller caller)) ≠ [] →
          verify_caller strict_caller caller_matches config current_caller =
            Except.ok (some current_caller))) := by
  intro strict_caller caller_matches config current_caller
  refine ⟨?_, ?_, ?_⟩
  · intro hc hd
    simp [verify_caller, Config.count_callers, Config.count_databases, hc, hd]
  · intro hc hd
    constructor
    · simp [verify_caller, Config.count_callers, hc]
    · have hdb : config.count_databases ≠ 0 := by
        simpa [Config.count_databases, List.length_eq_zero] using hd
      simp [verify_caller, Config.count_callers, Config.count_databases, hc,
        Config.get_callers, hdb, hd]
  · intro hc
    have hlen : config.count_callers ≠ 0 := by
      simpa [Config.count_callers, List.length_eq_zero] using hc
    constructor
    · intro hm
      simp [verify_caller, hlen, Config.get_callers, hm]
    · intro hm
      simp [verify_caller, hlen, Config.get_callers, List.length_eq_zero, hm]

def callerGit : Caller := ⟨"/usr/bin/git", some 1000, some 1000, false⟩

def currentGit : CurrentCaller := ⟨"/usr/bin/git", 1000, 1000⟩

/-- Pure path-equality matcher used to instantiate the abstract
`caller_matches` parameter in concrete scenarios. -/
def matchByPath (current_caller : CurrentCaller) (caller : Caller) : Bool :=
  current_caller.path == caller.path

/-- Witness for claim C4 at a concrete configuration: one configured
caller matching the current process yields success with the resolved
identity. -/
theorem claim4_witness :
    verify_caller true matchByPath ⟨[dbOne], [callerGit]⟩ currentGit =
      Except.ok (some currentGit) :=
  ((claim4_verify_caller true matchByPath ⟨[dbOne], [callerGit]⟩ currentGit).2.2
    (by decide)).2 (by decide)

/-- A login entry returned by the counterpart in a `GetLogins` response
(`keepassxc::messages::LoginEntry`, shape reconstructed from its uses in
`src/main.rs`): `expired` is the optional `KeePassBoolean` flag,
`string_fields` the optional list of single-key string-field maps. -/
structure LoginEntry where
  login : String
  password : String
  uuid : String
  name : String
  group : Option String
  expired : Option Bool
  string_fields : Option (List (List (String × String)))
deriving DecidableEq

/-- Entry filters decided by the CLI layer: the "no KPH: git = false"
toggle, the group-name allow-list, and the "git-groups"-only toggle. -/
structure EntryFilters where
  kph : Bool
  groups : List String
  git_groups : Bool
deriving DecidableEq

/-- Lookup in one string-field map (`HashMap::get`). -/
def mapGet (m : List (String × String)) (key : String) : Option String :=
  (m.find? (fun kv => kv.1 == key)).map (fun kv => kv.2)

/-- `filter_kph` (lines 464-477 of `src/main.rs`): retain an entry unless
some string-field map has `KPH: git` mapped to `"false"`. -/
def filter_kph (login_entry : LoginEntry) : Bool :=
  match login_entry.string_fields with
  | some string_fields =>
    (string_fields.find? (fun m =>
      match mapGet m "KPH: git" with
      | some v => v == "false"
      | none => false)).isNone
  | none => true

/-- `filter_group` (lines 479-497 of `src/main.rs`): entries without group
info are always retained; with `git_groups` disabled an entry is retained
when the allow-list is empty or contains its group; with `git_groups`
enabled it is retained when the allow-list or the configured databases'
groups contain its group. -/
def filter_group (login_entry : LoginEntry) (groups : List String) (git_groups : Bool)
    (databases : List Database) : Bool :=
  match login_entry.group with
  | some login_entry_group =>
    if git_groups = false then
      groups.isEmpty || groups.contains login_entry_group
    else
      let database_groups := databases.map (fun d => d.group)
      groups.contains login_entry_group || database_groups.contains login_entry_group
  | none => true

/-- The expiry filter applied first in `get_logins_for` (line 423 of
`src/main.rs`): `e.expired.is_none() || !e.expired.as_ref().unwrap().0`. -/
def not_expired (e : LoginEntry) : Bool :=
  e.expired.isNone || !(e.expired.getD false)

/-- The filtering pipeline of `get_logins_for` (lines 420-447 of
`src/main.rs`), applied to the entries of the `GetLogins` response: drop
expired entries, then apply `filter_kph` when the KPH filter is enabled,
then apply `filter_group`. -/
def get_logins_for (gl_entries : List LoginEntry) (filters : EntryFilters)
    (databases : List Database) : List LoginEntry :=
  let login_entries := gl_entries.filter not_expired
  let login_entries :=
    if filters.kph = true then login_entries.filter filter_kph else login_entries
  login_entries.filter
    (fun login_entry => filter_group login_entry filters.groups filters.git_groups databases)

/-- Claim C7: the expired filter runs first and independently of the
enabled filters; it removes exactly the entries whose `expired` flag is
present and true, entries with no flag or a false flag are kept at that
step, and no expired entry survives the whole pipeline. -/
theorem claim7_expired_filtered_first :
    ∀ (gl_entries : List LoginEntry) (filters : EntryFilters) (databases : List Database),
      (gl_entries.filter not_expired =
        gl_entries.filter (fun e => e.expired != some true)) ∧
      (∀ e ∈ gl_entries, e.expired ≠ some true → e ∈ gl_entries.filter not_expired) ∧
      (∀ e ∈ get_logins_for gl_entries filters databases, e.expired ≠ some true) := by
  intro gl_entries filters databases
  have hpred : ∀ e : LoginEntry, not_expired e = (e.expired != some true) := by
    intro e
    rcases h : e.expired with _ | b
    · simp [not_expired, h]
    · cases b <;> simp [not_expired, h]
  refine ⟨List.filter_congr (fun e _ => hpred e), ?_, ?_⟩
  · intro e he hexp
    refine List.mem_filter.mpr ⟨he, ?_⟩
    rw [hpred]
    simpa using hexp
  · intro e he
    have h1 : e ∈ gl_entries.filter not_expired := by
      have h2 := List.mem_filter.mp he
      rcases h2 with ⟨h2, _⟩
      by_cases hk : filters.kph = true
      · simp only [get_logins_for, hk, if_pos] at h2
        exact (List.mem_filter.mp h2).1
      · simp only [get_logins_for, hk, if_neg] at h2
        simpa using h2
    have := (List.mem_filter.mp h1).2
    rw [hpred] at this
    simpa using this

/-- Witness for claim C7: a concrete mixed entry list. -/
theorem claim7_witness :
    (([⟨"u", "p", "i1", "n", none, some true, none⟩,
       ⟨"u", "p", "i2", "n", none, some false, none⟩] : List LoginEntry).filter not_expired =
      ([⟨"u", "p", "i1", "n", none, some true, none⟩,
        ⟨"u", "p", "i2", "n", none, some false, none⟩] : List LoginEntry).filter
          (fun e => e.expired != some true)) ∧
    ((⟨"u", "p", "i2", "n", none, some false, none⟩ : LoginEntry) ∈
      ([⟨"u", "p", "i1", "n", none, some true, none⟩,
        ⟨"u", "p", "i2", "n", none, some false, none⟩] : List LoginEntry).filter not_expired) := by
  have h := claim7_expired_filtered_first
    [⟨"u", "p", "i1", "n", none, some true, none⟩,
     ⟨"u", "p", "i2", "n", none, some false, none⟩] ⟨true, [], false⟩ []
  exact ⟨h.1, h.2.1 _ (by decide) (by decide)⟩

def entryInGroupX : LoginEntry := ⟨"u", "p", "id-x", "n", some "X", none, none⟩

/-- Claim C8, counterexample: with an empty group allow-list but the
git-groups toggle enabled, an entry whose group is not among the
configured databases' groups is NOT retained, so `filter_group` with an
empty groups list is not true for every entry. -/
theorem claim8_counterexample :
    filter_group entryInGroupX [] true [] = false := by decide

/-- Claim C8 (amended): group filtering with an empty allow-list retains
every entry when the git-groups toggle is disabled, and entries without
group info are always retained; with the git-groups toggle enabled, an
entry with group info is retained exactly when its group is among the
configured databases' groups. -/
theorem claim8_empty_allow_list :
    ∀ (e : LoginEntry) (databases : List Database),
      (filter_group e [] false databases = true) ∧
      (∀ (groups : List String) (git_groups : Bool), e.group = none →
        filter_group e groups git_groups databases = true) ∧
      (∀ g : String, e.group = some g →
        filter_group e [] true databases =
          (databases.map (fun d => d.group)).contains g) := by
  intro e databases
  refine ⟨?_, ?_, ?_⟩
  · rcases h : e.group with _ | g <;> simp [filter_group, h]
  · intro groups git_groups h
    simp [filter_group, h]
  · intro g h
    simp [filter_group, h]

/-- Witness for claim C8 (amended) at a concrete entry whose group is the
configured database's git group. -/
theorem claim8_witness :
    filter_group ⟨"u", "p", "id-g", "n", some "git", none, none⟩ [] true [dbOne] =
      ([dbOne].map (fun d => d.group)).contains "git" :=
  (claim8_empty_allow_list ⟨"u", "p", "id-g", "n", some "git", none, none⟩ [dbOne]).2.2
    "git" (by decide)

/-- Decoded `GetTotp` response (`success` optional flag, `totp` code),
with the `uuid` field `src/main.rs` injects after the send. -/
structure GetTotpResponse where
  success : Option Bool
  totp : String
  uuid : Option String
deriving DecidableEq

/-- `get_totp_for` (lines 452-462 of `src/main.rs`): the send outcome is
the oracle argument (`none` = transport/protocol failure, propagated by
`?`).  On a decoded response, inject the uuid and succeed only when the
`success` flag is present and true and the code is non-empty. -/
def get_totp_for (uuid : String) (send_result : Option GetTotpResponse) :
    Except Unit GetTotpResponse :=
  match send_result with
  | none => Except.error ()
  | some resp =>
    let gt_resp : GetTotpResponse := ⟨resp.success, resp.totp, some uuid⟩
    if gt_resp.success.isSome && gt_resp.success.getD false && !gt_resp.totp.isEmpty then
      Except.ok gt_resp
    else
      Except.error ()

/-- The git credential response assembled by `get_logins`
(username/password/totp fields only). -/
structure GitCredentialMessage where
  username : Option String
  password : Option String
  totp : Option String
deriving DecidableEq

/-- The three get modes of the CLI layer. -/
inductive GetMode where
  | passwordOnly
  | passwordAndTotp
  | totpOnly
deriving DecidableEq

/-- The tail of `get_logins` (lines 599-617 of `src/main.rs`) for the
selected entry: in combined password+TOTP mode a TOTP failure is only
logged and the response still carries the entry's username/password; in
TOTP-only mode a TOTP failure is propagated with `?`; outside TOTP-only
mode the entry's username and password are written into the response. -/
def finish_get_logins (mode : GetMode) (login : LoginEntry)
    (totp_result : Except Unit GetTotpResponse)
    (git_req : GitCredentialMessage) : Except Unit GitCredentialMessage :=
  let step1 : Except Unit GitCredentialMessage :=
    match mode with
    | .passwordAndTotp =>
      Except.ok (match totp_result with
        | .ok totp => { git_req with totp := some totp.totp }
        | .error _ => git_req)
    | .totpOnly =>
      match totp_result with
      | .ok totp => Except.ok { git_req with totp := some totp.totp }
      | .error e => Except.error e
    | .passwordOnly => Except.ok git_req
  match step1 with
  | .error e => Except.error e
  | .ok git_resp =>
    Except.ok (if mode ≠ GetMode.totpOnly then
      { git_resp with username := some login.login, password := some login.password }
    else git_resp)

/-- Claim C6: `get_totp_for` errors whenever the counterpart reports
failure (send error or `success = Some(false)`), reports no success
flag, or reports success with an empty TOTP code; the error is fatal in
TOTP-only mode but only logged in combined mode, where the password is
still returned. -/
theorem claim6_totp_error_handling :
    (∀ uuid : String, get_totp_for uuid none = Except.error ()) ∧
    (∀ (uuid : String) (r : GetTotpResponse), r.success = none →
      get_totp_for uuid (some r) = Except.error ()) ∧
    (∀ (uuid : String) (r : GetTotpResponse), r.success = some false →
      get_totp_for uuid (some r) = Except.error ()) ∧
    (∀ (uuid : String) (r : GetTotpResponse), r.totp = "" →
      get_totp_for uuid (some r) = Except.error ()) ∧
    (∀ (login : LoginEntry) (git_req : GitCredentialMessage),
      finish_get_logins GetMode.totpOnly login (Except.error ()) git_req =
        Except.error ()) ∧
    (∀ (login : LoginEntry) (git_req : GitCredentialMessage),
      finish_get_logins GetMode.passwordAndTotp login (Except.error ()) git_req =
        Except.ok { git_req with
          username := some login.login, password := some login.password }) := by
  refine ⟨?_, ?_, ?_, ?_, ?_, ?_⟩
  · intro uuid
    rfl
  · intro uuid r h
    simp [get_totp_for, h]
  · intro uuid r h
    simp [get_totp_for, h]
  · intro uuid r h
    simp [get_totp_for, h, String.isEmpty]
  · intro login git_req
    rfl
  · intro login git_req
    rfl

/-- Witness for claim C6: concrete failing responses and concrete
combined-mode fallback. -/
theorem claim6_witness :
    get_totp_for "id-1" (some ⟨some false, "123456", none⟩) = Except.error () ∧
    finish_get_logins GetMode.passwordAndTotp ⟨"u", "p", "id-1", "n", none, none, none⟩
      (Except.error ()) ⟨none, none, none⟩ =
      Except.ok ⟨some "u", some "p", none⟩ := by
  exact ⟨claim6_totp_error_handling.2.2.1 "id-1" ⟨some false, "123456", none⟩ rfl,
    claim6_totp_error_handling.2.2.2.2.2 ⟨"u", "p", "id-1", "n", none, none, none⟩
      ⟨none, none, none⟩⟩

/-- The entry-selection logic of `get_logins` (lines 574-596 of
`src/main.rs`): error on an empty list; when more than one entry remains
and the git request carries a username, narrow to the entries whose
login equals it unless none matches; return the first entry of the
resulting list. -/
def select_login_entry (login_entries : List LoginEntry) (git_username : Option String) :
    Option LoginEntry :=
  if login_entries.isEmpty then none
  else
    let login_entries :=
      match git_username with
      | some username =>
        if 1 < login_entries.length then
          let login_entries_name_matches :=
            login_entries.filter (fun entry : LoginEntry => entry.login == username)
          if login_entries_name_matches.isEmpty then login_entries
          else login_entries_name_matches
        else login_entries
      | none => login_entries
    login_entries.head?

/-- Claim C10: in `get_logins`, when more than one entry survives
filtering and the request carries a username, the list is narrowed to
the entries whose login equals that username when at least one matches
and kept unchanged when none does, and the first entry of the resulting
list is returned. -/
theorem claim10_username_narrowing :
    ∀ (login_entries : List LoginEntry) (username : String),
      1 < login_entries.length →
      ((login_entries.filter (fun entry => entry.login == username)) ≠ [] →
        select_login_entry login_entries (some username) =
          (login_entries.filter (fun entry => entry.login == username)).head?) ∧
      ((login_entries.filter (fun entry => entry.login == username)) = [] →
        select_login_entry login_entries (some username) = login_entries.head?) := by
  intro login_entries username hlen
  have hne : login_entries.isEmpty = false := by
    rcases login_entries with _ | ⟨e, rest⟩
    · simp at hlen
    · simp
  constructor
  · intro hm
    simp [select_login_entry, hne, hlen, List.isEmpty_iff, hm]
  · intro hm
    simp [select_login_entry, hne, hlen, List.isEmpty_iff, hm]

def entryAlice : LoginEntry := ⟨"alice", "pa", "id-a", "alice", none, none, none⟩

def entryBob : LoginEntry := ⟨"bob", "pb", "id-b", "bob", none, none, none⟩

/-- Witness for claim C10: two entries and a username matching the
second one. -/
theorem claim10_witness :
    select_login_entry [entryAlice, entryBob] (some "bob") =
      ([entryAlice, entryBob].filter (fun entry => entry.login == "bob")).head? :=
  (claim10_username_narrowing [entryAlice, entryBob] "bob" (by decide)).1 (by decide)

/-- A KeePassXC group as used by `store_login` when resolving
`--create-in` (name and uuid of a flat group). -/
structure KpGroup where
  name : String
  uuid : String
deriving DecidableEq

/-- Observable outcome of `store_login` (lines 636-749 of `src/main.rs`)
after the session and entry lookup: either an early error/no-op return,
one of the two panics (`unimplemented!()` on multi-database update,
`first().unwrap()` on an empty database list), or the `SetLoginRequest`
it sends, with all its fields. -/
inductive StoreOutcome where
  | errUsernameMissing
  | errPasswordMissing
  | okNoChange
  | notImplementedMultiDb
  | noDatabaseConfigured
  | unreachableNoEntry
  | errGroupNotFound (group : String)
  | sendSetLogin (url : String) (submit_url : String) (id : String) (login : String)
      (password : String) (group : Option String) (group_uuid : Option String)
      (uuid : Option String)
deriving DecidableEq

/-- `store_login` decision logic (lines 650-745 of `src/main.rs`).
`get_logins_result` is the outcome of the `get_logins_for` call (`none`
= it failed); the subsequent `and_then` filters the entries by the
requested username and turns an empty result into a failure, selecting
the update path only when some entry remains.  `create_in` is
`args.create_in` and `flat_groups` the flat group list a
`GetDatabaseGroups` round trip would return for the create path. -/
def store_login (url : String) (git_username git_password : Option String)
    (get_logins_result : Option (List LoginEntry))
    (databases : List Database)
    (create_in : Option String)
    (flat_groups : List KpGroup) : StoreOutcome :=
  match git_username, git_password with
  | none, _ => StoreOutcome.errUsernameMissing
  | some _, none => StoreOutcome.errPasswordMissing
  | some username, some password =>
    let login_entries : Option (List LoginEntry) :=
      match get_logins_result with
      | none => none
      | some entries =>
        let entries := entries.filter (fun entry : LoginEntry => entry.login == username)
        if entries.isEmpty then none else some entries
    match login_entries with
    | some entries =>
      match entries.head? with
      | none => StoreOutcome.unreachableNoEntry
      | some login_entry =>
        if login_entry.login == username && login_entry.password == password then
          StoreOutcome.okNoChange
        else if 1 < databases.length then
          StoreOutcome.notImplementedMultiDb
        else
          match databases.head? with
          | none => StoreOutcome.noDatabaseConfigured
          | some database =>
            StoreOutcome.sendSetLogin url url database.id username password
              (some database.group) (some database.group_uuid) (some login_entry.uuid)
    | none =>
      match databases.head? with
      | none => StoreOutcome.noDatabaseConfigured
      | some database =>
        match create_in with
        | some group =>
          match ((flat_groups.filter (fun g : KpGroup => g.name == group)).map
              (fun g : KpGroup => g.uuid)).head? with
          | none => StoreOutcome.errGroupNotFound group
          | some group_uuid =>
            StoreOutcome.sendSetLogin url url database.id username password
              (some group) (some group_uuid) none
        | none =>
          StoreOutcome.sendSetLogin url url database.id username password
            (some database.group) (some database.group_uuid) none

/-- Claim C5: `store_login` is idempotent on unchanged credentials: when
the entry found for the requested username also has the requested
password, it returns success (`okNoChange`) without building or sending
any `SetLoginRequest`. -/
theorem claim5_store_login_idempotent :
    ∀ (url username password : String) (entries : List LoginEntry)
      (databases : List Database) (create_in : Option String)
      (flat_groups : List KpGroup) (e : LoginEntry) (rest : List LoginEntry),
      entries.filter (fun entry : LoginEntry => entry.login == username) = e :: rest →
      e.password = password →
      store_login url (some username) (some password) (some entries)
        databases create_in flat_groups = StoreOutcome.okNoChange := by
  intro url username password entries databases create_in flat_groups e rest hfilter hpw
  have hlogin : e.login == username := by
    have : e ∈ entries.filter (fun entry : LoginEntry => entry.login == username) := by
      rw [hfilter]
      exact List.mem_cons_self e rest
    exact (List.mem_filter.mp this).2
  simp only [store_login, hfilter]
  simp [hlogin, hpw]

/-- Witness for claim C5: one matching entry with unchanged password. -/
theorem claim5_witness :
    store_login "https://example.com" (some "alice") (some "pa")
      (some [entryAlice, entryBob]) [dbOne] none [] = StoreOutcome.okNoChange :=
  claim5_store_login_idempotent "https://example.com" "alice" "pa"
    [entryAlice, entryBob] [dbOne] none [] entryAlice [] (by decide) rfl

/-- Claim C9: on the update path (an entry with the requested username
exists but its password differs), `store_login` fast-fails with the
explicit `unimplemented!()` outcome when more than one database is
configured, before constructing any `SetLoginRequest`; with exactly one
database it proceeds and sends the update request against that
database. -/
theorem claim9_multi_database_update :
    ∀ (url username password : String) (entries : List LoginEntry)
      (databases : List Database) (create_in : Option String)
      (flat_groups : List KpGroup) (e : LoginEntry) (rest : List LoginEntry),
      entries.filter (fun entry : LoginEntry => entry.login == username) = e :: rest →
      e.password ≠ password →
      (1 < databases.length →
        store_login url (some username) (some password) (some entries)
          databases create_in flat_groups = StoreOutcome.notImplementedMultiDb) ∧
      (∀ db : Database, databases = [db] →
        store_login url (some username) (some password) (some entries)
          databases create_in flat_groups =
          StoreOutcome.sendSetLogin url url db.id username password
            (some db.group) (some db.group_uuid) (some e.uuid)) := by
  intro url username password entries databases create_in flat_groups e rest hfilter hpw
  have hlogin : e.login == username := by
    have : e ∈ entries.filter (fun entry : LoginEntry => entry.login == username) := by
      rw [hfilter]
      exact List.mem_cons_self e rest
    exact (List.mem_filter.mp this).2
  have hpwb : (e.password == password) = false := by
    simpa using hpw
  constructor
  · intro hlen
    simp only [store_login, hfilter]
    simp [hlogin, hpwb, hlen]
  · intro db hdb
    subst hdb
    simp only [store_login, hfilter]
    simp [hlogin, hpwb]

def dbTwo : Database := ⟨"db2", "", "pkey2", "work", "uuid-work"⟩

/-- Witness for claim C9: changed password, two configured databases on
one side and a single database on the other. -/
theorem claim9_witness :
    store_login "https://example.com" (some "alice") (some "new-pw")
      (some [entryAlice]) [dbOne, dbTwo] none [] = StoreOutcome.notImplementedMultiDb ∧
    store_login "https://example.com" (some "alice") (some "new-pw")
      (some [entryAlice]) [dbOne] none [] =
      StoreOutcome.sendSetLogin "https://example.com" "https://example.com" "db1"
        "alice" "new-pw" (some "git") (some "uuid-git") (some "id-a") := by
  constructor
  · exact (claim9_multi_database_update "https://example.com" "alice" "new-pw"
      [entryAlice] [dbOne, dbTwo] none [] entryAlice [] (by decide) (by decide)).1
      (by decide)
  · exact (claim9_multi_database_update "https://example.com" "alice" "new-pw"
      [entryAlice] [dbOne] none [] entryAlice [] (by decide) (by decide)).2
      dbOne rfl

theorem newSuccess_false_true :
    ∀ res : TasoResult, res.newSuccess false = true → res = TasoResult.ok (some true) := by
  intro res h
  cases res with
  | ok s =>
    cases s with
    | none => simp [TasoResult.newSuccess] at h
    | some b =>
      cases b with
      | false => simp [TasoResult.newSuccess] at h
      | true => rfl
  | errLocked => simp [TasoResult.newSuccess] at h
  | errOther => simp [TasoResult.newSuccess] at h

/-- When the inner polling loop exits through a successful
`GetDatabaseHash` probe, its loop condition held at that iteration and
the retry counter was not decremented, so the retries-exhausted break of
the outer loop cannot fire. -/
theorem pollLoop_unlocked_remain (hash : Nat → Bool) (max_retries : Nat) :
    ∀ (fuel : Nat) (st pst : PollState),
      pollLoop hash max_retries fuel st = some (PollExit.unlocked pst) →
      0 < pst.remain ∨ max_retries = 0 := by
  intro fuel
  induction fuel with
  | zero =>
    intro st pst h
    simp [pollLoop] at h
  | succ fuel ih =>
    intro st pst h
    rw [pollLoop] at h
    split at h
    · rename_i hcond
      split at h
      · simp only [Option.some.injEq, PollExit.unlocked.injEq] at h
        rw [← h]
        simpa using hcond
      · exact ih _ _ h
    · simp at h

/-- If the outer authentication loop, entered with the `success`
variable false, ends with `success = true`, then the last
`TestAssociate` send it made returned a decoded response whose success
flag is true. -/
theorem authLoop_success_last_taso (cp : Counterpart) (opts : Option UnlockOptions) :
    ∀ (fuel : Nat) (st : AuthState) (r : AuthResult),
      authLoop cp opts fuel st = some r → st.success = false → r.success = true →
      st.tasoIdx < r.tasoCalls ∧ cp.taso (r.tasoCalls - 1) = TasoResult.ok (some true) := by
  intro fuel
  induction fuel with
  | zero =>
    intro st r h _ _
    simp [authLoop] at h
  | succ fuel ih =>
    intro st r h hst hr
    cases opts with
    | none =>
      simp only [authLoop] at h
      rw [hst] at h
      simp only [Option.some.injEq] at h
      subst h
      refine ⟨Nat.lt_succ_self _, ?_⟩
      simpa using newSuccess_false_true _ hr
    | some o =>
      simp only [authLoop] at h
      rw [hst] at h
      split at h
      · rename_i hcond
        simp only [Option.some.injEq] at h
        subst h
        refine ⟨Nat.lt_succ_self _, ?_⟩
        simpa using newSuccess_false_true _ hr
      · rename_i hcond
        obtain ⟨hc1, hc2⟩ := not_or.mp hcond
        rcases hpoll : pollLoop cp.hash o.max_retries fuel ⟨st.remain, st.hashIdx, st.sleeps⟩
          with _ | ex
        · rw [hpoll] at h
          simp at h
        · rw [hpoll] at h
          simp only at h
          split at h
          · simp only [Option.some.injEq] at h
            subst h
            simp only [Bool.not_eq_true] at hc1
            exact absurd (by simpa using hr) (by simp [hc1])
          · have hrec := ih _ _ h (by simpa using hc1) hr
            exact ⟨Nat.lt_of_succ_lt hrec.1, hrec.2⟩

/-- A database kept by the filter of `associated_databases` has an
authentication loop outcome with `success = true`. -/
theorem filterAuth_mem_success (cps : Database → Counterpart) (opts : Option UnlockOptions)
    (fuel : Nat) :
    ∀ (dbs l : List Database) (db : Database),
      filterAuth cps opts fuel dbs = some l → db ∈ l →
      ∃ r : AuthResult, databaseAuth (cps db) opts fuel = some r ∧ r.success = true := by
  intro dbs
  induction dbs with
  | nil =>
    intro l db h hm
    simp only [filterAuth, Option.some.injEq] at h
    subst h
    simp at hm
  | cons db0 rest ih =>
    intro l db h hm
    rw [filterAuth] at h
    rcases hda : databaseAuth (cps db0) opts fuel with _ | r
    · rw [hda] at h
      simp at h
    · rw [hda] at h
      rcases hfa : filterAuth cps opts fuel rest with _ | tail
      · rw [hfa] at h
        simp at h
      · rw [hfa] at h
        simp only [Option.some.injEq] at h
        subst h
        by_cases hs : r.success = true
        · rw [if_pos hs] at hm
          rcases List.mem_cons.mp hm with heq | hm2
          · subst heq
            exact ⟨r, hda, hs⟩
          · exact ih _ _ hfa hm2
        · rw [if_neg hs] at hm
          exact ih _ _ hfa hm

/-- The filter of `associated_databases` keeps exactly the databases
whose authentication loop reports success. -/
theorem filterAuth_eq_filter (cps : Database → Counterpart) (opts : Option UnlockOptions)
    (fuel : Nat) :
    ∀ (dbs l : List Database),
      filterAuth cps opts fuel dbs = some l →
      l = dbs.filter
        (fun db => ((databaseAuth (cps db) opts fuel).map AuthResult.success).getD false) := by
  intro dbs
  induction dbs with
  | nil =>
    intro l h
    simp only [filterAuth, Option.some.injEq] at h
    subst h
    rfl
  | cons db0 rest ih =>
    intro l h
    rw [filterAuth] at h
    rcases hda : databaseAuth (cps db0) opts fuel with _ | r
    · rw [hda] at h
      simp at h
    · rw [hda] at h
      rcases hfa : filterAuth cps opts fuel rest with _ | tail
      · rw [hfa] at h
        simp at h
      · rw [hfa] at h
        simp only [Option.some.injEq] at h
        subst h
        rw [List.filter_cons]
        have hpred :
            ((databaseAuth (cps db0) opts fuel).map AuthResult.success).getD false = r.success := by
          rw [hda]
          rfl
        rw [hpred, ← ih _ hfa]

/-- Claim C2: `associated_databases` never treats a `GetDatabaseHash`
probe success as authentication.  (1) Whenever the per-database loop
ends successfully, the last `TestAssociate` send returned a response
with a true success flag; (2) when the polling loop exits through a
probe success, the retries-exhausted break of the outer loop cannot
fire, so `TestAssociate` is re-attempted; (3) a database is in the
result set only if its loop ended with such a `TestAssociate` success. -/
theorem claim2_never_probe_success_alone :
    (∀ (cp : Counterpart) (opts : Option UnlockOptions) (fuel : Nat) (r : AuthResult),
      databaseAuth cp opts fuel = some r → r.success = true →
      0 < r.tasoCalls ∧ cp.taso (r.tasoCalls - 1) = TasoResult.ok (some true)) ∧
    (∀ (hash : Nat → Bool) (max_retries fuel : Nat) (st pst : PollState),
      pollLoop hash max_retries fuel st = some (PollExit.unlocked pst) →
      ¬(pst.remain = 0 ∧ max_retries ≠ 0)) ∧
    (∀ (cps : Database → Counterpart) (opts : Option UnlockOptions) (fuel : Nat)
      (dbs l : List Database) (db : Database),
      filterAuth cps opts fuel dbs = some l → db ∈ l →
      ∃ r : AuthResult, databaseAuth (cps db) opts fuel = some r ∧ r.success = true ∧
        (cps db).taso (r.tasoCalls - 1) = TasoResult.ok (some true)) := by
  refine ⟨?_, ?_, ?_⟩
  · intro cp opts fuel r h hr
    have hmain := authLoop_success_last_taso cp opts fuel
      ⟨(opts.map UnlockOptions.max_retries).getD 0, false, 0, 0, 0⟩ r h rfl hr
    exact ⟨hmain.1, hmain.2⟩
  · intro hash max_retries fuel st pst h hc
    rcases pollLoop_unlocked_remain hash max_retries fuel st pst h with h1 | h2
    · omega
    · exact hc.2 h2
  · intro cps opts fuel dbs l db h hm
    obtain ⟨r, hda, hs⟩ := filterAuth_mem_success cps opts fuel dbs l db h hm
    have hmain := authLoop_success_last_taso (cps db) opts fuel
      ⟨(opts.map UnlockOptions.max_retries).getD 0, false, 0, 0, 0⟩ r hda rfl hs
    exact ⟨r, hda, hs, hmain.2⟩

/-- Counterpart that immediately authenticates. -/
def cpOkFirst : Counterpart where
  taso := fun _ => TasoResult.ok (some true)
  hash := fun _ => false

/-- Witness for claim C2 at a concrete counterpart. -/
theorem claim2_witness :
    (0 < (1 : Nat) ∧ cpOkFirst.taso (1 - 1) = TasoResult.ok (some true)) ∧
    (∃ r : AuthResult, databaseAuth cpOkFirst none 4 = some r ∧ r.success = true ∧
      cpOkFirst.taso (r.tasoCalls - 1) = TasoResult.ok (some true)) := by
  constructor
  · exact claim2_never_probe_success_alone.1 cpOkFirst none 4 ⟨true, 1, 0, 0⟩
      (by decide) (by decide)
  · exact claim2_never_probe_success_alone.2.2 (fun _ => cpOkFirst) none 4
      [dbOne] [dbOne] dbOne (by decide) (by decide)

/-- Claim C3: `associated_databases` yields the error outcome exactly
when the set of databases passing authentication is empty, and a
successful outcome is exactly the (non-empty) filtered database list:
per-database failures only exclude that database. -/
theorem claim3_empty_result_error :
    ∀ (config : Config) (cps : Database → Counterpart) (opts : Option UnlockOptions)
      (fuel : Nat) (res : Except Unit (List Database)),
      associated_databases config cps opts fuel = some res →
      ((res = Except.error () ↔
        config.get_databases.filter
          (fun db => ((databaseAuth (cps db) opts fuel).map AuthResult.success).getD false)
          = []) ∧
       (∀ l : List Database, res = Except.ok l →
        l = config.get_databases.filter
          (fun db => ((databaseAuth (cps db) opts fuel).map AuthResult.success).getD false) ∧
        l ≠ [])) := by
  intro config cps opts fuel res h
  unfold associated_databases at h
  rcases hfa : filterAuth cps opts fuel config.get_databases with _ | l0
  · rw [hfa] at h
    simp at h
  · rw [hfa] at h
    simp only [Option.map_some', Option.some.injEq] at h
    have hl0 := filterAuth_eq_filter cps opts fuel _ _ hfa
    by_cases he : l0.isEmpty
    · rw [if_pos he] at h
      subst h
      have hnil : l0 = [] := List.isEmpty_iff.mp he
      constructor
      · exact ⟨fun _ => by rw [← hl0, hnil], fun _ => rfl⟩
      · intro l hl
        exact Except.noConfusion hl
    · rw [if_neg he] at h
      subst h
      have hne : l0 ≠ [] := by simpa [List.isEmpty_iff] using he
      constructor
      · constructor
        · intro hcontra
          exact Except.noConfusion hcontra
        · intro hfil
          exact absurd (hl0.trans hfil) hne
      · intro l hl
        injection hl with hl
        subst hl
        exact ⟨hl0, hne⟩

/-- Counterpart that authenticates but reports a false success flag. -/
def cpNeverOk : Counterpart where
  taso := fun _ => TasoResult.ok (some false)
  hash := fun _ => false

def cfgTwoDb : Config := ⟨[dbOne, dbTwo], []⟩

/-- Oracle assignment where only `db1` authenticates. -/
def cpsMixed : Database → Counterpart :=
  fun db => if db.id == "db1" then cpOkFirst else cpNeverOk

/-- Witness for claim C3: of two configured databases only one
authenticates and only that one is returned; when none authenticates
the outcome is the error. -/
theorem claim3_witness :
    ([dbOne] =
      cfgTwoDb.get_databases.filter
        (fun db => ((databaseAuth (cpsMixed db) none 4).map AuthResult.success).getD false) ∧
      [dbOne] ≠ []) ∧
    ((Except.error () : Except Unit (List Database)) = Except.error () ↔
      cfgTwoDb.get_databases.filter
        (fun db =>
          ((databaseAuth ((fun _ => cpNeverOk) db) none 4).map AuthResult.success).getD false)
        = []) := by
  constructor
  · exact (claim3_empty_result_error cfgTwoDb cpsMixed none 4
      (Except.ok [dbOne]) (by rfl)).2 [dbOne] rfl
  · exact (claim3_empty_result_error cfgTwoDb (fun _ => cpNeverOk) none 4
      (Except.error ()) (by rfl)).1
